import Mathlib

/-!
# Vendor specific A2DP codec support (`system/stack/a2dp/a2dp_vendor.cc`)

A shallow embedding of the vendor codec shim and proofs about it.

* A codec-info blob (`const uint8_t* p_codec_info`) is the list of bytes that
  may be read through the pointer.  A read at an index outside the list has no
  defined value in C; the embedding returns `none` for it, and every function
  that reads the blob is `Option` valued.
* The 32-bit `int` / `unsigned` values of the C expressions are represented by
  their bit patterns, natural numbers below `2^32`; shifts are reduced
  `% 2^32` and the conversion to `uint16_t` is `% 2^16`.
* Constants and the codec type accessor that are declared in headers outside
  this file are the fields of `Platform`.
-/

namespace A2dpVendor

/-! ## Data model -/

/-- A `uint8_t`. -/
abbrev Byte := Fin 256

/-- The bytes readable through a `const uint8_t*` codec-info pointer. -/
abbrev Blob := List Byte

/-- What `a2dp_vendor.cc` takes from its headers: the two start indices, the
codec type of vendor codecs and the codec type accessor `A2DP_GetCodecType`
(a `tA2DP_CODEC_TYPE` is a `uint8_t`; the accessor may fail on a blob it cannot
read). -/
structure Platform where
  A2DP_VENDOR_CODEC_VENDOR_ID_START_IDX : Nat
  A2DP_VENDOR_CODEC_CODEC_ID_START_IDX : Nat
  A2DP_MEDIA_CT_NON_A2DP : Nat
  A2DP_GetCodecType : Blob → Option Nat

/-- Modelled from the spec: the status codes `tA2DP_STATUS`, declared in a
header that is not part of the sources at hand.  The spec (section 3) gives the
closed set {OK, NOT_SUPPORTED, INVALID_PARAMS, ...}; `A2DP_SUCCESS` is OK and
`A2DP_NS_CODEC_TYPE` is NOT_SUPPORTED. -/
inductive tA2DP_STATUS where
  | A2DP_SUCCESS
  | A2DP_NS_CODEC_TYPE
  | A2DP_INVALID_PARAMS
  deriving DecidableEq

/-! ## Machine arithmetic -/

/-- The read `p[i]`: the byte at index `i`, promoted to `int`. -/
def byteAt (p : Blob) (i : Nat) : Option Nat :=
  p[i]?.map Fin.val

/-- The shift `x << k` on a 32-bit pattern.  The operand is a promoted byte and
`k` is at most 24, so the product is below `2^32`: it is representable in
`unsigned int`, and the result of the shift on `int` is the `int` with that bit
pattern, also when bit 31 is set. -/
def shl32 (x k : Nat) : Nat :=
  (x <<< k) % 2 ^ 32

/-- Conversion to `uint32_t`. -/
def toU32 (x : Nat) : Nat :=
  x % 2 ^ 32

/-- Conversion to `uint16_t`. -/
def toU16 (x : Nat) : Nat :=
  x % 2 ^ 16

/-! ## The functions of `a2dp_vendor.cc` -/

def A2DP_IsVendorSourceCodecValid (_p_codec_info : Blob) : Bool :=
  false

def A2DP_IsVendorSinkCodecValid (_p_codec_info : Blob) : Bool :=
  false

def A2DP_IsVendorPeerSourceCodecValid (_p_codec_info : Blob) : Bool :=
  false

def A2DP_IsVendorPeerSinkCodecValid (_p_codec_info : Blob) : Bool :=
  false

def A2DP_IsVendorSourceCodecSupported (_p_codec_info : Blob) : Bool :=
  false

def A2DP_IsVendorSinkCodecSupported (_p_codec_info : Blob) : Bool :=
  false

def A2DP_IsVendorPeerSourceCodecSupported (_p_codec_info : Blob) : Bool :=
  false

/-- Returns the status and the content of the output buffer `p_pref_cfg` after
the call. -/
def A2DP_VendorBuildSrc2SinkConfig (_p_src_cap : Blob) (p_pref_cfg : List Byte) :
    tA2DP_STATUS × List Byte :=
  (tA2DP_STATUS.A2DP_NS_CODEC_TYPE, p_pref_cfg)

/-- Returns the status and the content of the output buffer
`p_result_sink_config` after the call. -/
def A2DP_VendorBuildSinkConfig (_p_src_config _p_sink_cap : Blob)
    (p_result_sink_config : List Byte) : tA2DP_STATUS × List Byte :=
  (tA2DP_STATUS.A2DP_NS_CODEC_TYPE, p_result_sink_config)

def A2DP_VendorCodecGetVendorId (P : Platform) (p_codec_info : Blob) : Option Nat := do
  let p := fun k => byteAt p_codec_info (P.A2DP_VENDOR_CODEC_VENDOR_ID_START_IDX + k)
  let p0 ← p 0
  let p1 ← p 1
  let p2 ← p 2
  let p3 ← p 3
  let vendor_id := toU32 ((p0 &&& 0x000000ff) ||| (shl32 p1 8 &&& 0x0000ff00) |||
                       (shl32 p2 16 &&& 0x00ff0000) |||
                       (shl32 p3 24 &&& 0xff000000))
  return vendor_id

def A2DP_VendorCodecGetCodecId (P : Platform) (p_codec_info : Blob) : Option Nat := do
  let p := fun k => byteAt p_codec_info (P.A2DP_VENDOR_CODEC_CODEC_ID_START_IDX + k)
  let p0 ← p 0
  let p1 ← p 1
  let codec_id := toU16 ((p0 &&& 0x00ff) ||| (shl32 p1 8 &&& 0xff00))
  return codec_id

def A2DP_VendorUsesRtpHeader (_content_protection_enabled : Bool) (_p_codec_info : Blob) :
    Bool :=
  true

/-- The result is a `const char*`; `none` stands for the null pointer. -/
def A2DP_VendorCodecName (_p_codec_info : Blob) : Option String :=
  some "UNKNOWN VENDOR CODEC"

def A2DP_VendorCodecTypeEquals (P : Platform) (p_codec_info_a p_codec_info_b : Blob) :
    Option Bool := do
  let codec_type_a ← P.A2DP_GetCodecType p_codec_info_a
  let codec_type_b ← P.A2DP_GetCodecType p_codec_info_b
  if codec_type_a ≠ codec_type_b ∨ codec_type_a ≠ P.A2DP_MEDIA_CT_NON_A2DP then
    return false
  let vendor_id_a ← A2DP_VendorCodecGetVendorId P p_codec_info_a
  let codec_id_a ← A2DP_VendorCodecGetCodecId P p_codec_info_a
  let vendor_id_b ← A2DP_VendorCodecGetVendorId P p_codec_info_b
  let codec_id_b ← A2DP_VendorCodecGetCodecId P p_codec_info_b
  return (vendor_id_a == vendor_id_b) && (codec_id_a == codec_id_b)

def A2DP_VendorCodecEquals (P : Platform) (p_codec_info_a p_codec_info_b : Blob) :
    Option Bool := do
  let codec_type_a ← P.A2DP_GetCodecType p_codec_info_a
  let codec_type_b ← P.A2DP_GetCodecType p_codec_info_b
  if codec_type_a ≠ codec_type_b ∨ codec_type_a ≠ P.A2DP_MEDIA_CT_NON_A2DP then
    return false
  let vendor_id_a ← A2DP_VendorCodecGetVendorId P p_codec_info_a
  let codec_id_a ← A2DP_VendorCodecGetCodecId P p_codec_info_a
  let vendor_id_b ← A2DP_VendorCodecGetVendorId P p_codec_info_b
  let codec_id_b ← A2DP_VendorCodecGetCodecId P p_codec_info_b
  if vendor_id_a ≠ vendor_id_b ∨ codec_id_a ≠ codec_id_b then return false
  return false

def A2DP_VendorCodecRequiresReconfig (P : Platform) (p_codec_info_a p_codec_info_b : Blob) :
    Option Bool := do
  let codec_type_a ← P.A2DP_GetCodecType p_codec_info_a
  let codec_type_b ← P.A2DP_GetCodecType p_codec_info_b
  if codec_type_a ≠ codec_type_b ∨ codec_type_a ≠ P.A2DP_MEDIA_CT_NON_A2DP then
    return true
  let vendor_id_a ← A2DP_VendorCodecGetVendorId P p_codec_info_a
  let codec_id_a ← A2DP_VendorCodecGetCodecId P p_codec_info_a
  let vendor_id_b ← A2DP_VendorCodecGetVendorId P p_codec_info_b
  let codec_id_b ← A2DP_VendorCodecGetCodecId P p_codec_info_b
  if vendor_id_a ≠ vendor_id_b ∨ codec_id_a ≠ codec_id_b then return true
  return true

def A2DP_VendorCodecConfigMatchesCapabilities (P : Platform)
    (p_codec_config p_codec_caps : Blob) : Option Bool := do
  let type_equals ← A2DP_VendorCodecTypeEquals P p_codec_config p_codec_caps
  if !type_equals then return false
  return false

def A2DP_VendorGetTrackFrequency (_p_codec_info : Blob) : Int :=
  -1

def A2DP_VendorGetTrackChannelCount (_p_codec_info : Blob) : Int :=
  -1

def A2DP_VendorGetNumberOfSubbands (_p_codec_info : Blob) : Int :=
  -1

def A2DP_VendorGetNumberOfBlocks (_p_codec_info : Blob) : Int :=
  -1

def A2DP_VendorGetAllocationMethodCode (_p_codec_info : Blob) : Int :=
  -1

def A2DP_VendorGetChannelModeCode (_p_codec_info : Blob) : Int :=
  -1

def A2DP_VendorGetSamplingFrequencyCode (_p_codec_info : Blob) : Int :=
  -1

def A2DP_VendorGetMinBitpool (_p_codec_info : Blob) : Int :=
  -1

def A2DP_VendorGetMaxBitpool (_p_codec_info : Blob) : Int :=
  -1

def A2DP_VendorGetSinkTrackChannelType (_p_codec_info : Blob) : Int :=
  -1

/-- The interval `time_interval_ms` is a `uint64_t`. -/
def A2DP_VendorGetSinkFramesCountToProcess (_time_interval_ms : Nat) (_p_codec_info : Blob) :
    Int :=
  -1

/-- Returns the result and the content of `*p_timestamp` after the call. -/
def A2DP_VendorGetPacketTimestamp (_p_codec_info _p_data : Blob) (p_timestamp : Nat) :
    Bool × Nat :=
  (false, p_timestamp)

/-- Returns the result and the content of the packet buffer `*p_buf` after the
call.  The buffer type `BT_HDR` is declared in a header outside this file and is
a parameter; `frames_per_packet` is a `uint16_t`. -/
def A2DP_VendorBuildCodecHeader {BT_HDR : Type} (_p_codec_info : Blob) (p_buf : BT_HDR)
    (_frames_per_packet : Nat) : Bool × BT_HDR :=
  (false, p_buf)

/-- The result is a pointer to an encoder interface; `none` stands for `NULL`.
The type `tA2DP_ENCODER_INTERFACE` is declared in a header outside this file
and is a parameter. -/
def A2DP_VendorGetEncoderInterface (tA2DP_ENCODER_INTERFACE : Type) (_p_codec_info : Blob) :
    Option tA2DP_ENCODER_INTERFACE :=
  none

/-! ## A concrete platform, for evaluating the functions on given blobs -/

/-- A platform with the codec type in byte 2, the vendor id in bytes 3..6 and
the codec id in bytes 7..8; vendor codecs have codec type `0xFF`. -/
def samplePlatform : Platform where
  A2DP_VENDOR_CODEC_VENDOR_ID_START_IDX := 3
  A2DP_VENDOR_CODEC_CODEC_ID_START_IDX := 7
  A2DP_MEDIA_CT_NON_A2DP := 0xFF
  A2DP_GetCodecType := fun p => byteAt p 2

/-- A vendor blob: vendor id `0x0000012D`, codec id `0x0001`, one payload byte. -/
def sampleBlob : Blob := [9, 0, 0xFF, 0x2D, 0x01, 0x00, 0x00, 0x01, 0x00, 0x21]

/-- A blob of the same vendor and another codec id (`0x0002`). -/
def sampleBlob2 : Blob := [9, 0, 0xFF, 0x2D, 0x01, 0x00, 0x00, 0x02, 0x00, 0x21]

/-- A blob whose codec type is not the vendor one, too short to hold the ids. -/
def sampleSbcBlob : Blob := [6, 0, 0x00, 0x21]

/-- A blob holding the largest vendor id and the largest codec id. -/
def sampleMaxBlob : Blob := [9, 0, 0xFF, 0xFF, 0xFF, 0xFF, 0xFF, 0xFF, 0xFF]

/-- A blob of length 7 with the vendor id bytes of `sampleBlob` and no codec id;
its other bytes differ from those of `sampleBlob`. -/
def sampleShortBlob : Blob := [1, 2, 3, 0x2D, 0x01, 0x00, 0x00]

/-- A blob with the vendor key of `sampleBlob`, of another length and with other
bytes outside the six key positions. -/
def sampleBlob3 : Blob := [7, 1, 0xFF, 0x2D, 0x01, 0x00, 0x00, 0x01, 0x00]

/-- A blob with the codec id bytes of `sampleBlob` and another vendor id. -/
def sampleBlob4 : Blob := [7, 1, 0xFF, 0x11, 0x22, 0x33, 0x84, 0x01, 0x00, 0x55, 0x66]

/-- A blob long enough to hold both ids whose codec type (`0x00`) is not the
vendor one. -/
def sampleNonVendorBlob : Blob := [6, 0, 0x00, 0x2D, 0x01, 0x00, 0x00, 0x01, 0x00]

/-! ## Byte assembly -/

set_option maxRecDepth 100000 in
theorem mask_byte0 (b : Byte) : b.val &&& 0xff = b.val := by
  revert b; decide

set_option maxRecDepth 100000 in
theorem mask_byte1 (b : Byte) : shl32 b.val 8 &&& 0xff00 = 2 ^ 8 * b.val := by
  revert b; decide

set_option maxRecDepth 100000 in
theorem mask_byte2 (b : Byte) : shl32 b.val 16 &&& 0xff0000 = 2 ^ 16 * b.val := by
  revert b; decide

set_option maxRecDepth 100000 in
theorem mask_byte3 (b : Byte) : shl32 b.val 24 &&& 0xff000000 = 2 ^ 24 * b.val := by
  revert b; decide

/-- The masked or of four shifted bytes is their little-endian sum. -/
theorem assemble32 (b0 b1 b2 b3 : Nat) (h0 : b0 < 256) (h1 : b1 < 256) (h2 : b2 < 256)
    (h3 : b3 < 256) :
    toU32 ((b0 &&& 0x000000ff) ||| (shl32 b1 8 &&& 0x0000ff00) |||
      (shl32 b2 16 &&& 0x00ff0000) ||| (shl32 b3 24 &&& 0xff000000))
      = b0 + 2 ^ 8 * b1 + 2 ^ 16 * b2 + 2 ^ 24 * b3 := by
  have e0 := mask_byte0 ⟨b0, h0⟩
  have e1 := mask_byte1 ⟨b1, h1⟩
  have e2 := mask_byte2 ⟨b2, h2⟩
  have e3 := mask_byte3 ⟨b3, h3⟩
  simp only at e0 e1 e2 e3
  rw [e0, e1, e2, e3]
  have l0 : b0 < 2 ^ 8 := h0
  have l1 : 2 ^ 8 * b1 + b0 < 2 ^ 16 := by omega
  have l2 : 2 ^ 16 * b2 + (2 ^ 8 * b1 + b0) < 2 ^ 24 := by omega
  rw [Nat.lor_comm b0, ← Nat.mul_add_lt_is_or l0, Nat.lor_comm _ (2 ^ 16 * b2),
    ← Nat.mul_add_lt_is_or l1, Nat.lor_comm _ (2 ^ 24 * b3), ← Nat.mul_add_lt_is_or l2]
  unfold toU32
  omega

/-- The masked or of two shifted bytes is their little-endian sum. -/
theorem assemble16 (b0 b1 : Nat) (h0 : b0 < 256) (h1 : b1 < 256) :
    toU16 ((b0 &&& 0x00ff) ||| (shl32 b1 8 &&& 0xff00)) = b0 + 2 ^ 8 * b1 := by
  have e0 := mask_byte0 ⟨b0, h0⟩
  have e1 := mask_byte1 ⟨b1, h1⟩
  simp only at e0 e1
  rw [e0, e1]
  have l0 : b0 < 2 ^ 8 := h0
  rw [Nat.lor_comm b0, ← Nat.mul_add_lt_is_or l0]
  unfold toU16
  omega

/-! ## Reads -/

theorem byteAt_lt {p : Blob} {i x : Nat} (h : byteAt p i = some x) : x < 256 := by
  unfold byteAt at h
  cases hb : p[i]? with
  | none => simp [hb] at h
  | some b =>
    simp [hb] at h
    omega

theorem byteAt_isSome (p : Blob) (i : Nat) (h : i < p.length) : ∃ x, byteAt p i = some x := by
  unfold byteAt
  exact ⟨(p[i]).val, by simp [List.getElem?_eq_getElem h]⟩

theorem byteAt_lt_length {p : Blob} {i x : Nat} (h : byteAt p i = some x) : i < p.length := by
  unfold byteAt at h
  cases hb : p[i]? with
  | none => simp [hb] at h
  | some b => exact (List.getElem?_eq_some_iff.1 hb).1

/-- The vendor id of a blob whose four bytes at the start index are known. -/
theorem getVendorId_of_bytes (P : Platform) (p : Blob) (b0 b1 b2 b3 : Nat)
    (h0 : byteAt p (P.A2DP_VENDOR_CODEC_VENDOR_ID_START_IDX + 0) = some b0)
    (h1 : byteAt p (P.A2DP_VENDOR_CODEC_VENDOR_ID_START_IDX + 1) = some b1)
    (h2 : byteAt p (P.A2DP_VENDOR_CODEC_VENDOR_ID_START_IDX + 2) = some b2)
    (h3 : byteAt p (P.A2DP_VENDOR_CODEC_VENDOR_ID_START_IDX + 3) = some b3) :
    A2DP_VendorCodecGetVendorId P p = some (b0 + 2 ^ 8 * b1 + 2 ^ 16 * b2 + 2 ^ 24 * b3) := by
  have e := assemble32 b0 b1 b2 b3 (byteAt_lt h0) (byteAt_lt h1) (byteAt_lt h2) (byteAt_lt h3)
  simp only [A2DP_VendorCodecGetVendorId, h0, h1, h2, h3, Option.bind_eq_bind, Option.some_bind,
    Option.pure_def, e]

/-- The codec id of a blob whose two bytes at the start index are known. -/
theorem getCodecId_of_bytes (P : Platform) (p : Blob) (b0 b1 : Nat)
    (h0 : byteAt p (P.A2DP_VENDOR_CODEC_CODEC_ID_START_IDX + 0) = some b0)
    (h1 : byteAt p (P.A2DP_VENDOR_CODEC_CODEC_ID_START_IDX + 1) = some b1) :
    A2DP_VendorCodecGetCodecId P p = some (b0 + 2 ^ 8 * b1) := by
  have e := assemble16 b0 b1 (byteAt_lt h0) (byteAt_lt h1)
  simp only [A2DP_VendorCodecGetCodecId, h0, h1, Option.bind_eq_bind, Option.some_bind,
    Option.pure_def, e]

/-- A blob long enough for the vendor id has one. -/
theorem getVendorId_isSome (P : Platform) (p : Blob)
    (h : P.A2DP_VENDOR_CODEC_VENDOR_ID_START_IDX + 4 ≤ p.length) :
    ∃ v, A2DP_VendorCodecGetVendorId P p = some v := by
  obtain ⟨b0, h0⟩ := byteAt_isSome p (P.A2DP_VENDOR_CODEC_VENDOR_ID_START_IDX + 0) (by omega)
  obtain ⟨b1, h1⟩ := byteAt_isSome p (P.A2DP_VENDOR_CODEC_VENDOR_ID_START_IDX + 1) (by omega)
  obtain ⟨b2, h2⟩ := byteAt_isSome p (P.A2DP_VENDOR_CODEC_VENDOR_ID_START_IDX + 2) (by omega)
  obtain ⟨b3, h3⟩ := byteAt_isSome p (P.A2DP_VENDOR_CODEC_VENDOR_ID_START_IDX + 3) (by omega)
  exact ⟨_, getVendorId_of_bytes P p b0 b1 b2 b3 h0 h1 h2 h3⟩

/-- A blob long enough for the codec id has one. -/
theorem getCodecId_isSome (P : Platform) (p : Blob)
    (h : P.A2DP_VENDOR_CODEC_CODEC_ID_START_IDX + 2 ≤ p.length) :
    ∃ c, A2DP_VendorCodecGetCodecId P p = some c := by
  obtain ⟨b0, h0⟩ := byteAt_isSome p (P.A2DP_VENDOR_CODEC_CODEC_ID_START_IDX + 0) (by omega)
  obtain ⟨b1, h1⟩ := byteAt_isSome p (P.A2DP_VENDOR_CODEC_CODEC_ID_START_IDX + 1) (by omega)
  exact ⟨_, getCodecId_of_bytes P p b0 b1 h0 h1⟩

/-! ## Characterisations of the comparisons -/

/-- When `A2DP_VendorCodecTypeEquals` returns true. -/
theorem typeEquals_eq_true_iff (P : Platform) (a b : Blob) :
    A2DP_VendorCodecTypeEquals P a b = some true ↔
      P.A2DP_GetCodecType a = some P.A2DP_MEDIA_CT_NON_A2DP ∧
      P.A2DP_GetCodecType b = some P.A2DP_MEDIA_CT_NON_A2DP ∧
      (∃ v, A2DP_VendorCodecGetVendorId P a = some v ∧
        A2DP_VendorCodecGetVendorId P b = some v) ∧
      (∃ c, A2DP_VendorCodecGetCodecId P a = some c ∧
        A2DP_VendorCodecGetCodecId P b = some c) := by
  unfold A2DP_VendorCodecTypeEquals
  cases hta : P.A2DP_GetCodecType a with
  | none => simp
  | some ta =>
    cases htb : P.A2DP_GetCodecType b with
    | none => simp
    | some tb =>
      by_cases hg : ta ≠ tb ∨ ta ≠ P.A2DP_MEDIA_CT_NON_A2DP
      · simp only [Option.bind_eq_bind, Option.some_bind, hg, if_true]
        simp only [Option.pure_def, Option.some.injEq, Bool.false_eq_true, false_iff]
        rintro ⟨rfl, rfl, -⟩
        simp at hg
      · simp only [Option.bind_eq_bind, Option.some_bind, hg, if_false]
        have hg1 : ta = P.A2DP_MEDIA_CT_NON_A2DP := by
          by_contra h; exact hg (Or.inr h)
        have hg2 : tb = P.A2DP_MEDIA_CT_NON_A2DP := by
          by_contra h; exact hg (Or.inl (by rw [hg1]; exact fun e => h e.symm))
        cases A2DP_VendorCodecGetVendorId P a <;> cases A2DP_VendorCodecGetCodecId P a <;>
          cases A2DP_VendorCodecGetVendorId P b <;> cases A2DP_VendorCodecGetCodecId P b <;>
          simp [hg1, hg2]
        exact ⟨fun h => ⟨h.1.symm, h.2.symm⟩, fun h => ⟨h.1.symm, h.2.symm⟩⟩

/-- When `A2DP_VendorCodecTypeEquals` returns false. -/
theorem typeEquals_eq_false_iff (P : Platform) (a b : Blob) :
    A2DP_VendorCodecTypeEquals P a b = some false ↔
      ∃ ta tb, P.A2DP_GetCodecType a = some ta ∧ P.A2DP_GetCodecType b = some tb ∧
        ((ta ≠ tb ∨ ta ≠ P.A2DP_MEDIA_CT_NON_A2DP) ∨
          ∃ va ca vb cb, A2DP_VendorCodecGetVendorId P a = some va ∧
            A2DP_VendorCodecGetCodecId P a = some ca ∧
            A2DP_VendorCodecGetVendorId P b = some vb ∧
            A2DP_VendorCodecGetCodecId P b = some cb ∧ (va ≠ vb ∨ ca ≠ cb)) := by
  unfold A2DP_VendorCodecTypeEquals
  cases hta : P.A2DP_GetCodecType a with
  | none => simp
  | some ta =>
    cases htb : P.A2DP_GetCodecType b with
    | none => simp
    | some tb =>
      by_cases hg : ta ≠ tb ∨ ta ≠ P.A2DP_MEDIA_CT_NON_A2DP
      · simp only [Option.bind_eq_bind, Option.some_bind, hg, if_true]
        simp only [Option.pure_def, true_iff]
        exact ⟨ta, tb, rfl, rfl, Or.inl hg⟩
      · simp only [Option.bind_eq_bind, Option.some_bind, hg, if_false]
        cases A2DP_VendorCodecGetVendorId P a <;> cases A2DP_VendorCodecGetCodecId P a <;>
          cases A2DP_VendorCodecGetVendorId P b <;> cases A2DP_VendorCodecGetCodecId P b <;>
          simp [hg, imp_iff_not_or]

/-- The result of `A2DP_VendorCodecEquals` when the guard on the codec types
fires, and when it does not and the four ids are read. -/
theorem equals_eq_false_iff (P : Platform) (a b : Blob) :
    A2DP_VendorCodecEquals P a b = some false ↔
      ∃ ta tb, P.A2DP_GetCodecType a = some ta ∧ P.A2DP_GetCodecType b = some tb ∧
        ((ta ≠ tb ∨ ta ≠ P.A2DP_MEDIA_CT_NON_A2DP) ∨
          ∃ va ca vb cb, A2DP_VendorCodecGetVendorId P a = some va ∧
            A2DP_VendorCodecGetCodecId P a = some ca ∧
            A2DP_VendorCodecGetVendorId P b = some vb ∧
            A2DP_VendorCodecGetCodecId P b = some cb) := by
  unfold A2DP_VendorCodecEquals
  cases hta : P.A2DP_GetCodecType a with
  | none => simp
  | some ta =>
    cases htb : P.A2DP_GetCodecType b with
    | none => simp
    | some tb =>
      by_cases hg : ta ≠ tb ∨ ta ≠ P.A2DP_MEDIA_CT_NON_A2DP
      · simp only [Option.bind_eq_bind, Option.some_bind, hg, if_true]
        simp only [Option.pure_def, true_iff]
        exact ⟨ta, tb, rfl, rfl, Or.inl hg⟩
      · simp only [Option.bind_eq_bind, Option.some_bind, hg, if_false]
        cases A2DP_VendorCodecGetVendorId P a <;> cases A2DP_VendorCodecGetCodecId P a <;>
          cases A2DP_VendorCodecGetVendorId P b <;> cases A2DP_VendorCodecGetCodecId P b <;>
          simp [hg]

/-- The result of `A2DP_VendorCodecRequiresReconfig` when the guard on the codec
types fires, and when it does not and the four ids are read. -/
theorem requiresReconfig_eq_true_iff (P : Platform) (a b : Blob) :
    A2DP_VendorCodecRequiresReconfig P a b = some true ↔
      ∃ ta tb, P.A2DP_GetCodecType a = some ta ∧ P.A2DP_GetCodecType b = some tb ∧
        ((ta ≠ tb ∨ ta ≠ P.A2DP_MEDIA_CT_NON_A2DP) ∨
          ∃ va ca vb cb, A2DP_VendorCodecGetVendorId P a = some va ∧
            A2DP_VendorCodecGetCodecId P a = some ca ∧
            A2DP_VendorCodecGetVendorId P b = some vb ∧
            A2DP_VendorCodecGetCodecId P b = some cb) := by
  unfold A2DP_VendorCodecRequiresReconfig
  cases hta : P.A2DP_GetCodecType a with
  | none => simp
  | some ta =>
    cases htb : P.A2DP_GetCodecType b with
    | none => simp
    | some tb =>
      by_cases hg : ta ≠ tb ∨ ta ≠ P.A2DP_MEDIA_CT_NON_A2DP
      · simp only [Option.bind_eq_bind, Option.some_bind, hg, if_true]
        simp only [Option.pure_def, true_iff]
        exact ⟨ta, tb, rfl, rfl, Or.inl hg⟩
      · simp only [Option.bind_eq_bind, Option.some_bind, hg, if_false]
        cases A2DP_VendorCodecGetVendorId P a <;> cases A2DP_VendorCodecGetCodecId P a <;>
          cases A2DP_VendorCodecGetVendorId P b <;> cases A2DP_VendorCodecGetCodecId P b <;>
          simp [hg]

/-- `A2DP_VendorCodecEquals` has no path that returns true. -/
theorem equals_ne_true (P : Platform) (a b : Blob) :
    A2DP_VendorCodecEquals P a b ≠ some true := by
  unfold A2DP_VendorCodecEquals
  cases P.A2DP_GetCodecType a <;> cases P.A2DP_GetCodecType b <;>
    cases A2DP_VendorCodecGetVendorId P a <;> cases A2DP_VendorCodecGetCodecId P a <;>
    cases A2DP_VendorCodecGetVendorId P b <;> cases A2DP_VendorCodecGetCodecId P b <;>
    simp

/-- `A2DP_VendorCodecRequiresReconfig` has no path that returns false. -/
theorem requiresReconfig_ne_false (P : Platform) (a b : Blob) :
    A2DP_VendorCodecRequiresReconfig P a b ≠ some false := by
  unfold A2DP_VendorCodecRequiresReconfig
  cases P.A2DP_GetCodecType a <;> cases P.A2DP_GetCodecType b <;>
    cases A2DP_VendorCodecGetVendorId P a <;> cases A2DP_VendorCodecGetCodecId P a <;>
    cases A2DP_VendorCodecGetVendorId P b <;> cases A2DP_VendorCodecGetCodecId P b <;>
    simp

/-! ## Claims -/

/-- C1: round trip of the identity fields.  For every vendor id `v < 2^32` and
codec id `c < 2^16`, a blob that holds the four little-endian bytes of `v` from
the vendor-id start index and the two little-endian bytes of `c` from the
codec-id start index decodes to exactly `v` and `c`. -/
theorem C1_identity_roundtrip (P : Platform) (blob : Blob) (v c : Nat)
    (hv : v < 2 ^ 32) (hc : c < 2 ^ 16)
    (hv0 : byteAt blob (P.A2DP_VENDOR_CODEC_VENDOR_ID_START_IDX + 0) = some (v % 256))
    (hv1 : byteAt blob (P.A2DP_VENDOR_CODEC_VENDOR_ID_START_IDX + 1) = some (v / 2 ^ 8 % 256))
    (hv2 : byteAt blob (P.A2DP_VENDOR_CODEC_VENDOR_ID_START_IDX + 2) = some (v / 2 ^ 16 % 256))
    (hv3 : byteAt blob (P.A2DP_VENDOR_CODEC_VENDOR_ID_START_IDX + 3) = some (v / 2 ^ 24 % 256))
    (hc0 : byteAt blob (P.A2DP_VENDOR_CODEC_CODEC_ID_START_IDX + 0) = some (c % 256))
    (hc1 : byteAt blob (P.A2DP_VENDOR_CODEC_CODEC_ID_START_IDX + 1) = some (c / 2 ^ 8 % 256)) :
    A2DP_VendorCodecGetVendorId P blob = some v ∧
      A2DP_VendorCodecGetCodecId P blob = some c := by
  constructor
  · rw [getVendorId_of_bytes P blob _ _ _ _ hv0 hv1 hv2 hv3]
    congr 1
    omega
  · rw [getCodecId_of_bytes P blob _ _ hc0 hc1]
    congr 1
    omega

/-- C1 at the largest vendor id and the largest codec id. -/
theorem C1_identity_roundtrip_witness :
    (byteAt sampleMaxBlob (samplePlatform.A2DP_VENDOR_CODEC_VENDOR_ID_START_IDX + 0)
        = some (0xFFFFFFFF % 256) ∧
      byteAt sampleMaxBlob (samplePlatform.A2DP_VENDOR_CODEC_VENDOR_ID_START_IDX + 3)
        = some (0xFFFFFFFF / 2 ^ 24 % 256) ∧
      byteAt sampleMaxBlob (samplePlatform.A2DP_VENDOR_CODEC_CODEC_ID_START_IDX + 1)
        = some (0xFFFF / 2 ^ 8 % 256)) ∧
      A2DP_VendorCodecGetVendorId samplePlatform sampleMaxBlob = some 0xFFFFFFFF ∧
      A2DP_VendorCodecGetCodecId samplePlatform sampleMaxBlob = some 0xFFFF :=
  ⟨by decide,
    C1_identity_roundtrip samplePlatform sampleMaxBlob 0xFFFFFFFF 0xFFFF (by decide) (by decide)
      (by decide) (by decide) (by decide) (by decide) (by decide) (by decide)⟩

/-- C2: `A2DP_VendorCodecTypeEquals(a, b)` returns true if and only if both
blobs have the vendor codec type and the same vendor key: the vendor ids read
from `a` and `b` are equal and the codec ids read from `a` and `b` are equal. -/
theorem C2_typeEquals_iff_vendor_and_same_key (P : Platform) (a b : Blob) :
    A2DP_VendorCodecTypeEquals P a b = some true ↔
      P.A2DP_GetCodecType a = some P.A2DP_MEDIA_CT_NON_A2DP ∧
      P.A2DP_GetCodecType b = some P.A2DP_MEDIA_CT_NON_A2DP ∧
      (∃ v, A2DP_VendorCodecGetVendorId P a = some v ∧
        A2DP_VendorCodecGetVendorId P b = some v) ∧
      (∃ c, A2DP_VendorCodecGetCodecId P a = some c ∧
        A2DP_VendorCodecGetCodecId P b = some c) :=
  typeEquals_eq_true_iff P a b

/-- C3: type equality is a precondition of full equality.  If
`A2DP_VendorCodecTypeEquals(a, b)` returns false then
`A2DP_VendorCodecEquals(a, b)` returns false. -/
theorem C3_not_typeEquals_not_equals (P : Platform) (a b : Blob)
    (h : A2DP_VendorCodecTypeEquals P a b = some false) :
    A2DP_VendorCodecEquals P a b = some false := by
  obtain ⟨ta, tb, hta, htb, hc⟩ := (typeEquals_eq_false_iff P a b).1 h
  refine (equals_eq_false_iff P a b).2 ⟨ta, tb, hta, htb, ?_⟩
  rcases hc with hg | ⟨va, ca, vb, cb, h1, h2, h3, h4, -⟩
  · exact Or.inl hg
  · exact Or.inr ⟨va, ca, vb, cb, h1, h2, h3, h4⟩

/-- C3 at two vendor blobs of the same vendor and different codec ids. -/
theorem C3_not_typeEquals_not_equals_witness :
    A2DP_VendorCodecTypeEquals samplePlatform sampleBlob sampleBlob2 = some false ∧
      A2DP_VendorCodecEquals samplePlatform sampleBlob sampleBlob2 = some false :=
  ⟨by decide, C3_not_typeEquals_not_equals samplePlatform sampleBlob sampleBlob2 (by decide)⟩

/-- C5: `A2DP_VendorCodecTypeEquals` is symmetric, for every pair of blobs. -/
theorem C5_typeEquals_symmetric (P : Platform) (a b : Blob) :
    A2DP_VendorCodecTypeEquals P a b = A2DP_VendorCodecTypeEquals P b a := by
  unfold A2DP_VendorCodecTypeEquals
  cases hta : P.A2DP_GetCodecType a with
  | none => cases P.A2DP_GetCodecType b <;> simp
  | some ta =>
    cases htb : P.A2DP_GetCodecType b with
    | none => simp
    | some tb =>
      by_cases hg : ta ≠ tb ∨ ta ≠ P.A2DP_MEDIA_CT_NON_A2DP
      · have hg2 : tb ≠ ta ∨ tb ≠ P.A2DP_MEDIA_CT_NON_A2DP := by
          by_cases e : ta = tb
          · subst e; exact hg
          · exact Or.inl (fun h => e h.symm)
        simp only [Option.bind_eq_bind, Option.some_bind, hg, hg2, if_true]
      · have hg2 : ¬ (tb ≠ ta ∨ tb ≠ P.A2DP_MEDIA_CT_NON_A2DP) := by
          by_cases e : ta = tb
          · subst e; exact hg
          · exact absurd (Or.inl e) hg
        simp only [Option.bind_eq_bind, Option.some_bind, hg, hg2, if_false]
        cases A2DP_VendorCodecGetVendorId P a <;> cases A2DP_VendorCodecGetCodecId P a <;>
          cases A2DP_VendorCodecGetVendorId P b <;> cases A2DP_VendorCodecGetCodecId P b <;>
          simp [Bool.beq_comm, eq_comm]

/-- C4, as stated, fails: `sampleBlob` is a vendor blob long enough to hold
both ids, and `A2DP_VendorCodecEquals` returns false on it and itself. -/
theorem C4_equals_reflexive_counterexample :
    samplePlatform.A2DP_GetCodecType sampleBlob = some samplePlatform.A2DP_MEDIA_CT_NON_A2DP ∧
      samplePlatform.A2DP_VENDOR_CODEC_VENDOR_ID_START_IDX + 4 ≤ sampleBlob.length ∧
      samplePlatform.A2DP_VENDOR_CODEC_CODEC_ID_START_IDX + 2 ≤ sampleBlob.length ∧
      A2DP_VendorCodecEquals samplePlatform sampleBlob sampleBlob = some false ∧
      A2DP_VendorCodecEquals samplePlatform sampleBlob sampleBlob ≠ some true := by
  decide

/-- C4, amended: for every well-formed vendor blob `a` (vendor codec type, long
enough to hold the vendor id and the codec id), `A2DP_VendorCodecEquals(a, a)`
returns false. -/
theorem C4_equals_self_false (P : Platform) (a : Blob)
    (ht : P.A2DP_GetCodecType a = some P.A2DP_MEDIA_CT_NON_A2DP)
    (hv : P.A2DP_VENDOR_CODEC_VENDOR_ID_START_IDX + 4 ≤ a.length)
    (hc : P.A2DP_VENDOR_CODEC_CODEC_ID_START_IDX + 2 ≤ a.length) :
    A2DP_VendorCodecEquals P a a = some false := by
  obtain ⟨v, hv⟩ := getVendorId_isSome P a hv
  obtain ⟨c, hc⟩ := getCodecId_isSome P a hc
  exact (equals_eq_false_iff P a a).2 ⟨_, _, ht, ht, Or.inr ⟨v, c, v, c, hv, hc, hv, hc⟩⟩

/-- C4, amended, at `sampleBlob`. -/
theorem C4_equals_self_false_witness :
    samplePlatform.A2DP_GetCodecType sampleBlob = some samplePlatform.A2DP_MEDIA_CT_NON_A2DP ∧
      A2DP_VendorCodecEquals samplePlatform sampleBlob sampleBlob = some false :=
  ⟨by decide, C4_equals_self_false samplePlatform sampleBlob (by decide) (by decide) (by decide)⟩

/-- C6: `A2DP_VendorCodecRequiresReconfig(a, b)` returns true whenever the codec
types of `a` and `b` differ, or the codec type is not the vendor type, or the
vendor ids or the codec ids read from the two blobs differ. -/
theorem C6_requiresReconfig_on_difference (P : Platform) (a b : Blob) (ta tb : Nat)
    (hta : P.A2DP_GetCodecType a = some ta) (htb : P.A2DP_GetCodecType b = some tb)
    (h : ta ≠ tb ∨ ta ≠ P.A2DP_MEDIA_CT_NON_A2DP ∨
      ∃ va ca vb cb, A2DP_VendorCodecGetVendorId P a = some va ∧
        A2DP_VendorCodecGetCodecId P a = some ca ∧
        A2DP_VendorCodecGetVendorId P b = some vb ∧
        A2DP_VendorCodecGetCodecId P b = some cb ∧ (va ≠ vb ∨ ca ≠ cb)) :
    A2DP_VendorCodecRequiresReconfig P a b = some true := by
  refine (requiresReconfig_eq_true_iff P a b).2 ⟨ta, tb, hta, htb, ?_⟩
  rcases h with h | h | ⟨va, ca, vb, cb, h1, h2, h3, h4, -⟩
  · exact Or.inl (Or.inl h)
  · exact Or.inl (Or.inr h)
  · exact Or.inr ⟨va, ca, vb, cb, h1, h2, h3, h4⟩

/-- C6 at two vendor blobs whose codec ids differ (`0x0001` and `0x0002`). -/
theorem C6_requiresReconfig_on_difference_witness :
    (A2DP_VendorCodecGetCodecId samplePlatform sampleBlob = some 1 ∧
      A2DP_VendorCodecGetCodecId samplePlatform sampleBlob2 = some 2) ∧
      A2DP_VendorCodecRequiresReconfig samplePlatform sampleBlob sampleBlob2 = some true :=
  ⟨by decide,
    C6_requiresReconfig_on_difference samplePlatform sampleBlob sampleBlob2 0xFF 0xFF
      (by decide) (by decide)
      (Or.inr (Or.inr ⟨0x12D, 1, 0x12D, 2, by decide, by decide, by decide, by decide,
        Or.inr (by decide)⟩))⟩

/-- C7, as stated, fails: `sampleBlob` has the vendor codec type and
`A2DP_VendorCodecRequiresReconfig` returns true on it and itself. -/
theorem C7_requiresReconfig_self_counterexample :
    samplePlatform.A2DP_GetCodecType sampleBlob = some samplePlatform.A2DP_MEDIA_CT_NON_A2DP ∧
      A2DP_VendorCodecRequiresReconfig samplePlatform sampleBlob sampleBlob = some true ∧
      A2DP_VendorCodecRequiresReconfig samplePlatform sampleBlob sampleBlob ≠ some false := by
  decide

/-- C7, amended: for every vendor-type blob `a` long enough to hold the vendor
id and the codec id, `A2DP_VendorCodecRequiresReconfig(a, a)` returns true. -/
theorem C7_requiresReconfig_self_true (P : Platform) (a : Blob)
    (ht : P.A2DP_GetCodecType a = some P.A2DP_MEDIA_CT_NON_A2DP)
    (hv : P.A2DP_VENDOR_CODEC_VENDOR_ID_START_IDX + 4 ≤ a.length)
    (hc : P.A2DP_VENDOR_CODEC_CODEC_ID_START_IDX + 2 ≤ a.length) :
    A2DP_VendorCodecRequiresReconfig P a a = some true := by
  obtain ⟨v, hv⟩ := getVendorId_isSome P a hv
  obtain ⟨c, hc⟩ := getCodecId_isSome P a hc
  exact (requiresReconfig_eq_true_iff P a a).2
    ⟨_, _, ht, ht, Or.inr ⟨v, c, v, c, hv, hc, hv, hc⟩⟩

/-- C7, amended, at `sampleMaxBlob`. -/
theorem C7_requiresReconfig_self_true_witness :
    samplePlatform.A2DP_GetCodecType sampleMaxBlob
        = some samplePlatform.A2DP_MEDIA_CT_NON_A2DP ∧
      A2DP_VendorCodecRequiresReconfig samplePlatform sampleMaxBlob sampleMaxBlob = some true :=
  ⟨by decide,
    C7_requiresReconfig_self_true samplePlatform sampleMaxBlob (by decide) (by decide)
      (by decide)⟩

/-- C8: `A2DP_VendorCodecConfigMatchesCapabilities(config, caps)` returns false
whenever `A2DP_VendorCodecTypeEquals(config, caps)` is false, and it returns
true for no pair of blobs at all. -/
theorem C8_configMatches_only_if_typeEquals (P : Platform) (config caps : Blob)
    (h : A2DP_VendorCodecTypeEquals P config caps = some false) :
    A2DP_VendorCodecConfigMatchesCapabilities P config caps = some false ∧
      ∀ x y : Blob, A2DP_VendorCodecConfigMatchesCapabilities P x y ≠ some true := by
  constructor
  · simp [A2DP_VendorCodecConfigMatchesCapabilities, h]
  · intro x y
    unfold A2DP_VendorCodecConfigMatchesCapabilities
    cases hxy : A2DP_VendorCodecTypeEquals P x y with
    | none => simp
    | some t => cases t <;> simp

/-- C8 at a configuration and a capability of different codec ids. -/
theorem C8_configMatches_only_if_typeEquals_witness :
    A2DP_VendorCodecTypeEquals samplePlatform sampleBlob2 sampleBlob = some false ∧
      A2DP_VendorCodecConfigMatchesCapabilities samplePlatform sampleBlob2 sampleBlob
        = some false :=
  ⟨by decide,
    (C8_configMatches_only_if_typeEquals samplePlatform sampleBlob2 sampleBlob (by decide)).1⟩

/-- C9: for every source capability and every content of the output buffer,
`A2DP_VendorBuildSrc2SinkConfig` returns `A2DP_NS_CODEC_TYPE`, which is not the
success status, and leaves the output buffer as it was; the same holds for
`A2DP_VendorBuildSinkConfig`, for every source configuration, sink capability
and output buffer. -/
theorem C9_build_config_not_supported (p_src_cap p_src_config p_sink_cap : Blob)
    (out : List Byte) :
    (A2DP_VendorBuildSrc2SinkConfig p_src_cap out).1 = tA2DP_STATUS.A2DP_NS_CODEC_TYPE ∧
      (A2DP_VendorBuildSrc2SinkConfig p_src_cap out).1 ≠ tA2DP_STATUS.A2DP_SUCCESS ∧
      (A2DP_VendorBuildSrc2SinkConfig p_src_cap out).2 = out ∧
      (A2DP_VendorBuildSinkConfig p_src_config p_sink_cap out).1
        = tA2DP_STATUS.A2DP_NS_CODEC_TYPE ∧
      (A2DP_VendorBuildSinkConfig p_src_config p_sink_cap out).1 ≠ tA2DP_STATUS.A2DP_SUCCESS ∧
      (A2DP_VendorBuildSinkConfig p_src_config p_sink_cap out).2 = out := by
  refine ⟨rfl, ?_, rfl, rfl, ?_, rfl⟩ <;> simp [A2DP_VendorBuildSrc2SinkConfig,
    A2DP_VendorBuildSinkConfig]

/-- C10: every validity predicate and every support predicate returns false, for
every blob. -/
theorem C10_validity_and_support_reject (p_codec_info : Blob) :
    A2DP_IsVendorSourceCodecValid p_codec_info = false ∧
      A2DP_IsVendorSinkCodecValid p_codec_info = false ∧
      A2DP_IsVendorPeerSourceCodecValid p_codec_info = false ∧
      A2DP_IsVendorPeerSinkCodecValid p_codec_info = false ∧
      A2DP_IsVendorSourceCodecSupported p_codec_info = false ∧
      A2DP_IsVendorSinkCodecSupported p_codec_info = false ∧
      A2DP_IsVendorPeerSourceCodecSupported p_codec_info = false :=
  ⟨rfl, rfl, rfl, rfl, rfl, rfl, rfl⟩

/-- C11: every track parameter accessor returns the sentinel `-1` for every
blob, and `A2DP_VendorGetSinkFramesCountToProcess` returns `-1` for every
elapsed interval and every blob. -/
theorem C11_track_accessors_return_sentinel (p_codec_info : Blob) (time_interval_ms : Nat) :
    A2DP_VendorGetTrackFrequency p_codec_info = -1 ∧
      A2DP_VendorGetTrackChannelCount p_codec_info = -1 ∧
      A2DP_VendorGetNumberOfSubbands p_codec_info = -1 ∧
      A2DP_VendorGetNumberOfBlocks p_codec_info = -1 ∧
      A2DP_VendorGetAllocationMethodCode p_codec_info = -1 ∧
      A2DP_VendorGetChannelModeCode p_codec_info = -1 ∧
      A2DP_VendorGetSamplingFrequencyCode p_codec_info = -1 ∧
      A2DP_VendorGetMinBitpool p_codec_info = -1 ∧
      A2DP_VendorGetMaxBitpool p_codec_info = -1 ∧
      A2DP_VendorGetSinkTrackChannelType p_codec_info = -1 ∧
      A2DP_VendorGetSinkFramesCountToProcess time_interval_ms p_codec_info = -1 :=
  ⟨rfl, rfl, rfl, rfl, rfl, rfl, rfl, rfl, rfl, rfl, rfl⟩

/-- C12: `A2DP_VendorCodecName` never returns null and returns the same fixed,
non-empty string, `UNKNOWN VENDOR CODEC`, for every blob. -/
theorem C12_codecName_fixed (a b : Blob) :
    A2DP_VendorCodecName a = A2DP_VendorCodecName b ∧
      A2DP_VendorCodecName a ≠ none ∧
      A2DP_VendorCodecName a = some "UNKNOWN VENDOR CODEC" ∧
      "UNKNOWN VENDOR CODEC" ≠ "" := by
  refine ⟨rfl, ?_, rfl, by decide⟩
  simp [A2DP_VendorCodecName]

/-- C13: `A2DP_VendorUsesRtpHeader` returns true for both values of the content
protection flag and for every blob. -/
theorem C13_usesRtpHeader_true (content_protection_enabled : Bool) (p_codec_info : Blob) :
    A2DP_VendorUsesRtpHeader content_protection_enabled p_codec_info = true :=
  rfl

/-- C14: `A2DP_VendorGetPacketTimestamp` returns false and leaves the output
timestamp as it was, `A2DP_VendorBuildCodecHeader` returns false and leaves the
packet buffer as it was, and `A2DP_VendorGetEncoderInterface` returns the null
handle, for every blob, payload, packet buffer and frames-per-packet count. -/
theorem C14_packet_operations_not_supported (BT_HDR tA2DP_ENCODER_INTERFACE : Type)
    (p_codec_info p_data : Blob) (timestamp : Nat) (buf : BT_HDR) (frames_per_packet : Nat) :
    A2DP_VendorGetPacketTimestamp p_codec_info p_data timestamp = (false, timestamp) ∧
      A2DP_VendorBuildCodecHeader p_codec_info buf frames_per_packet = (false, buf) ∧
      A2DP_VendorGetEncoderInterface tA2DP_ENCODER_INTERFACE p_codec_info = none :=
  ⟨rfl, rfl, rfl⟩

/-! ## Reads of a truncated blob, and the bytes behind an extracted id -/

theorem byteAt_take (p : Blob) (n i : Nat) (h : i < n) : byteAt (p.take n) i = byteAt p i := by
  unfold byteAt
  rw [List.getElem?_take_of_lt h]

/-- An extracted vendor id is the little-endian sum of four bytes of the blob. -/
theorem getVendorId_some_inv (P : Platform) (p : Blob) (v : Nat)
    (h : A2DP_VendorCodecGetVendorId P p = some v) :
    ∃ b0 b1 b2 b3,
      byteAt p (P.A2DP_VENDOR_CODEC_VENDOR_ID_START_IDX + 0) = some b0 ∧
      byteAt p (P.A2DP_VENDOR_CODEC_VENDOR_ID_START_IDX + 1) = some b1 ∧
      byteAt p (P.A2DP_VENDOR_CODEC_VENDOR_ID_START_IDX + 2) = some b2 ∧
      byteAt p (P.A2DP_VENDOR_CODEC_VENDOR_ID_START_IDX + 3) = some b3 ∧
      v = b0 + 2 ^ 8 * b1 + 2 ^ 16 * b2 + 2 ^ 24 * b3 := by
  cases h0 : byteAt p (P.A2DP_VENDOR_CODEC_VENDOR_ID_START_IDX + 0) with
  | none =>
    simp only [Nat.add_zero] at h0
    simp [A2DP_VendorCodecGetVendorId, h0] at h
  | some b0 =>
    cases h1 : byteAt p (P.A2DP_VENDOR_CODEC_VENDOR_ID_START_IDX + 1) with
    | none => simp [A2DP_VendorCodecGetVendorId, h0, h1] at h
    | some b1 =>
      cases h2 : byteAt p (P.A2DP_VENDOR_CODEC_VENDOR_ID_START_IDX + 2) with
      | none => simp [A2DP_VendorCodecGetVendorId, h0, h1, h2] at h
      | some b2 =>
        cases h3 : byteAt p (P.A2DP_VENDOR_CODEC_VENDOR_ID_START_IDX + 3) with
        | none => simp [A2DP_VendorCodecGetVendorId, h0, h1, h2, h3] at h
        | some b3 =>
          have e := getVendorId_of_bytes P p b0 b1 b2 b3 h0 h1 h2 h3
          rw [h] at e
          exact ⟨b0, b1, b2, b3, rfl, rfl, rfl, rfl, Option.some.inj e⟩

/-- An extracted codec id is the little-endian sum of two bytes of the blob. -/
theorem getCodecId_some_inv (P : Platform) (p : Blob) (c : Nat)
    (h : A2DP_VendorCodecGetCodecId P p = some c) :
    ∃ b0 b1,
      byteAt p (P.A2DP_VENDOR_CODEC_CODEC_ID_START_IDX + 0) = some b0 ∧
      byteAt p (P.A2DP_VENDOR_CODEC_CODEC_ID_START_IDX + 1) = some b1 ∧
      c = b0 + 2 ^ 8 * b1 := by
  cases h0 : byteAt p (P.A2DP_VENDOR_CODEC_CODEC_ID_START_IDX + 0) with
  | none =>
    simp only [Nat.add_zero] at h0
    simp [A2DP_VendorCodecGetCodecId, h0] at h
  | some b0 =>
    cases h1 : byteAt p (P.A2DP_VENDOR_CODEC_CODEC_ID_START_IDX + 1) with
    | none => simp [A2DP_VendorCodecGetCodecId, h0, h1] at h
    | some b1 =>
      have e := getCodecId_of_bytes P p b0 b1 h0 h1
      rw [h] at e
      exact ⟨b0, b1, rfl, rfl, Option.some.inj e⟩

/-- The vendor id is determined by the four reads. -/
theorem getVendorId_congr (P : Platform) (a b : Blob)
    (h : ∀ k, k < 4 → byteAt a (P.A2DP_VENDOR_CODEC_VENDOR_ID_START_IDX + k)
      = byteAt b (P.A2DP_VENDOR_CODEC_VENDOR_ID_START_IDX + k)) :
    A2DP_VendorCodecGetVendorId P a = A2DP_VendorCodecGetVendorId P b := by
  unfold A2DP_VendorCodecGetVendorId
  simp only [h 0 (by omega), h 1 (by omega), h 2 (by omega), h 3 (by omega)]

/-- The codec id is determined by the two reads. -/
theorem getCodecId_congr (P : Platform) (a b : Blob)
    (h : ∀ k, k < 2 → byteAt a (P.A2DP_VENDOR_CODEC_CODEC_ID_START_IDX + k)
      = byteAt b (P.A2DP_VENDOR_CODEC_CODEC_ID_START_IDX + k)) :
    A2DP_VendorCodecGetCodecId P a = A2DP_VendorCodecGetCodecId P b := by
  unfold A2DP_VendorCodecGetCodecId
  simp only [h 0 (by omega), h 1 (by omega)]

/-! ## Claims on the extractors and on the relations between the comparisons -/

/-- C15: exact little-endian assembly.  For a blob with the bytes `p0 .. p3` at
the vendor-id start index the vendor id is `p0 + 2^8*p1 + 2^16*p2 + 2^24*p3`, a
value below `2^32` (also when `p3 ≥ 0x80`), and for a blob with the bytes `q0`,
`q1` at the codec-id start index the codec id is `q0 + 2^8*q1`, a value below
`2^16`. -/
theorem C15_exact_little_endian_assembly (P : Platform) (a b : Blob)
    (p0 p1 p2 p3 q0 q1 : Nat)
    (h0 : byteAt a (P.A2DP_VENDOR_CODEC_VENDOR_ID_START_IDX + 0) = some p0)
    (h1 : byteAt a (P.A2DP_VENDOR_CODEC_VENDOR_ID_START_IDX + 1) = some p1)
    (h2 : byteAt a (P.A2DP_VENDOR_CODEC_VENDOR_ID_START_IDX + 2) = some p2)
    (h3 : byteAt a (P.A2DP_VENDOR_CODEC_VENDOR_ID_START_IDX + 3) = some p3)
    (g0 : byteAt b (P.A2DP_VENDOR_CODEC_CODEC_ID_START_IDX + 0) = some q0)
    (g1 : byteAt b (P.A2DP_VENDOR_CODEC_CODEC_ID_START_IDX + 1) = some q1) :
    A2DP_VendorCodecGetVendorId P a = some (p0 + 2 ^ 8 * p1 + 2 ^ 16 * p2 + 2 ^ 24 * p3) ∧
      p0 + 2 ^ 8 * p1 + 2 ^ 16 * p2 + 2 ^ 24 * p3 < 2 ^ 32 ∧
      A2DP_VendorCodecGetCodecId P b = some (q0 + 2 ^ 8 * q1) ∧
      q0 + 2 ^ 8 * q1 < 2 ^ 16 := by
  have l0 := byteAt_lt h0
  have l1 := byteAt_lt h1
  have l2 := byteAt_lt h2
  have l3 := byteAt_lt h3
  have m0 := byteAt_lt g0
  have m1 := byteAt_lt g1
  refine ⟨getVendorId_of_bytes P a p0 p1 p2 p3 h0 h1 h2 h3, ?_,
    getCodecId_of_bytes P b q0 q1 g0 g1, ?_⟩ <;> omega

/-- C15 at a vendor id whose top byte is `0x84` and a codec id whose top byte is
`0xFF`. -/
theorem C15_exact_little_endian_assembly_witness :
    byteAt sampleBlob4 (samplePlatform.A2DP_VENDOR_CODEC_VENDOR_ID_START_IDX + 3) = some 0x84 ∧
      A2DP_VendorCodecGetVendorId samplePlatform sampleBlob4
        = some (0x11 + 2 ^ 8 * 0x22 + 2 ^ 16 * 0x33 + 2 ^ 24 * 0x84) ∧
      0x11 + 2 ^ 8 * 0x22 + 2 ^ 16 * 0x33 + 2 ^ 24 * 0x84 < 2 ^ 32 ∧
      A2DP_VendorCodecGetCodecId samplePlatform sampleMaxBlob = some (0xFF + 2 ^ 8 * 0xFF) ∧
      0xFF + 2 ^ 8 * 0xFF < 2 ^ 16 :=
  ⟨by decide,
    C15_exact_little_endian_assembly samplePlatform sampleBlob4 sampleMaxBlob
      0x11 0x22 0x33 0x84 0xFF 0xFF
      (by decide) (by decide) (by decide) (by decide) (by decide) (by decide)⟩

/-- C16: the extractors are functions of the bytes at the fixed offsets only.
Two blobs with the same four reads from the vendor-id start index have the same
vendor id, whatever their other bytes and their lengths; two blobs with the
same two reads from the codec-id start index have the same codec id. -/
theorem C16_extractors_depend_on_id_bytes_only (P : Platform) (a b c d : Blob)
    (hv : ∀ k, k < 4 → byteAt a (P.A2DP_VENDOR_CODEC_VENDOR_ID_START_IDX + k)
      = byteAt b (P.A2DP_VENDOR_CODEC_VENDOR_ID_START_IDX + k))
    (hc : ∀ k, k < 2 → byteAt c (P.A2DP_VENDOR_CODEC_CODEC_ID_START_IDX + k)
      = byteAt d (P.A2DP_VENDOR_CODEC_CODEC_ID_START_IDX + k)) :
    A2DP_VendorCodecGetVendorId P a = A2DP_VendorCodecGetVendorId P b ∧
      A2DP_VendorCodecGetCodecId P c = A2DP_VendorCodecGetCodecId P d :=
  ⟨getVendorId_congr P a b hv, getCodecId_congr P c d hc⟩

/-- C16 at blobs of different lengths that differ outside the id bytes. -/
theorem C16_extractors_depend_on_id_bytes_only_witness :
    (sampleBlob.length ≠ sampleShortBlob.length ∧ sampleBlob ≠ sampleBlob4) ∧
      A2DP_VendorCodecGetVendorId samplePlatform sampleBlob
        = A2DP_VendorCodecGetVendorId samplePlatform sampleShortBlob ∧
      A2DP_VendorCodecGetCodecId samplePlatform sampleBlob
        = A2DP_VendorCodecGetCodecId samplePlatform sampleBlob4 :=
  ⟨by decide,
    C16_extractors_depend_on_id_bytes_only samplePlatform sampleBlob sampleShortBlob
      sampleBlob sampleBlob4 (by decide) (by decide)⟩

/-- C17: the extractors stay in range.  `A2DP_VendorCodecGetVendorId` succeeds
on every blob of length at least the vendor-id start index plus 4, and
`A2DP_VendorCodecGetCodecId` on every blob of length at least the codec-id
start index plus 2; each succeeds with the same value on the blob cut off at
that bound, so no read is at or beyond it. -/
theorem C17_extractors_read_in_range (P : Platform) (a b : Blob)
    (ha : P.A2DP_VENDOR_CODEC_VENDOR_ID_START_IDX + 4 ≤ a.length)
    (hb : P.A2DP_VENDOR_CODEC_CODEC_ID_START_IDX + 2 ≤ b.length) :
    (∃ v, A2DP_VendorCodecGetVendorId P a = some v ∧
      A2DP_VendorCodecGetVendorId P
        (a.take (P.A2DP_VENDOR_CODEC_VENDOR_ID_START_IDX + 4)) = some v) ∧
    (∃ c, A2DP_VendorCodecGetCodecId P b = some c ∧
      A2DP_VendorCodecGetCodecId P
        (b.take (P.A2DP_VENDOR_CODEC_CODEC_ID_START_IDX + 2)) = some c) := by
  obtain ⟨v, hv⟩ := getVendorId_isSome P a ha
  obtain ⟨c, hc⟩ := getCodecId_isSome P b hb
  refine ⟨⟨v, hv, ?_⟩, ⟨c, hc, ?_⟩⟩
  · rw [← hv]
    exact getVendorId_congr P _ _ (fun k hk => byteAt_take a _ _ (by omega))
  · rw [← hc]
    exact getCodecId_congr P _ _ (fun k hk => byteAt_take b _ _ (by omega))

/-- C17 at a blob of exactly the length needed for the vendor id and a blob of
exactly the length needed for the codec id. -/
theorem C17_extractors_read_in_range_witness :
    (sampleShortBlob.length = 3 + 4 ∧ sampleMaxBlob.length = 7 + 2) ∧
      (∃ v, A2DP_VendorCodecGetVendorId samplePlatform sampleShortBlob = some v ∧
        A2DP_VendorCodecGetVendorId samplePlatform
          (sampleShortBlob.take (samplePlatform.A2DP_VENDOR_CODEC_VENDOR_ID_START_IDX + 4))
          = some v) ∧
      (∃ c, A2DP_VendorCodecGetCodecId samplePlatform sampleMaxBlob = some c ∧
        A2DP_VendorCodecGetCodecId samplePlatform
          (sampleMaxBlob.take (samplePlatform.A2DP_VENDOR_CODEC_CODEC_ID_START_IDX + 2))
          = some c) :=
  ⟨by decide,
    C17_extractors_read_in_range samplePlatform sampleShortBlob sampleMaxBlob
      (by decide) (by decide)⟩

/-- Two blobs have the same defined vendor id exactly when they hold the same
four bytes from the vendor-id start index. -/
theorem getVendorId_eq_iff_bytes (P : Platform) (a b : Blob) :
    (∃ v, A2DP_VendorCodecGetVendorId P a = some v ∧
      A2DP_VendorCodecGetVendorId P b = some v) ↔
    ∀ k, k < 4 → ∃ x, byteAt a (P.A2DP_VENDOR_CODEC_VENDOR_ID_START_IDX + k) = some x ∧
      byteAt b (P.A2DP_VENDOR_CODEC_VENDOR_ID_START_IDX + k) = some x := by
  constructor
  · rintro ⟨v, ha, hb⟩
    obtain ⟨a0, a1, a2, a3, ha0, ha1, ha2, ha3, ea⟩ := getVendorId_some_inv P a v ha
    obtain ⟨b0, b1, b2, b3, hb0, hb1, hb2, hb3, eb⟩ := getVendorId_some_inv P b v hb
    have la0 := byteAt_lt ha0
    have la1 := byteAt_lt ha1
    have la2 := byteAt_lt ha2
    have la3 := byteAt_lt ha3
    have lb0 := byteAt_lt hb0
    have lb1 := byteAt_lt hb1
    have lb2 := byteAt_lt hb2
    have lb3 := byteAt_lt hb3
    have e0 : a0 = b0 := by omega
    have e1 : a1 = b1 := by omega
    have e2 : a2 = b2 := by omega
    have e3 : a3 = b3 := by omega
    intro k hk
    interval_cases k
    · exact ⟨a0, ha0, by rw [hb0, e0]⟩
    · exact ⟨a1, ha1, by rw [hb1, e1]⟩
    · exact ⟨a2, ha2, by rw [hb2, e2]⟩
    · exact ⟨a3, ha3, by rw [hb3, e3]⟩
  · intro h
    obtain ⟨x0, ha0, hb0⟩ := h 0 (by omega)
    obtain ⟨x1, ha1, hb1⟩ := h 1 (by omega)
    obtain ⟨x2, ha2, hb2⟩ := h 2 (by omega)
    obtain ⟨x3, ha3, hb3⟩ := h 3 (by omega)
    exact ⟨_, getVendorId_of_bytes P a x0 x1 x2 x3 ha0 ha1 ha2 ha3,
      getVendorId_of_bytes P b x0 x1 x2 x3 hb0 hb1 hb2 hb3⟩

/-- Two blobs have the same defined codec id exactly when they hold the same two
bytes from the codec-id start index. -/
theorem getCodecId_eq_iff_bytes (P : Platform) (a b : Blob) :
    (∃ c, A2DP_VendorCodecGetCodecId P a = some c ∧
      A2DP_VendorCodecGetCodecId P b = some c) ↔
    ∀ k, k < 2 → ∃ x, byteAt a (P.A2DP_VENDOR_CODEC_CODEC_ID_START_IDX + k) = some x ∧
      byteAt b (P.A2DP_VENDOR_CODEC_CODEC_ID_START_IDX + k) = some x := by
  constructor
  · rintro ⟨c, ha, hb⟩
    obtain ⟨a0, a1, ha0, ha1, ea⟩ := getCodecId_some_inv P a c ha
    obtain ⟨b0, b1, hb0, hb1, eb⟩ := getCodecId_some_inv P b c hb
    have la0 := byteAt_lt ha0
    have la1 := byteAt_lt ha1
    have lb0 := byteAt_lt hb0
    have lb1 := byteAt_lt hb1
    have e0 : a0 = b0 := by omega
    have e1 : a1 = b1 := by omega
    intro k hk
    interval_cases k
    · exact ⟨a0, ha0, by rw [hb0, e0]⟩
    · exact ⟨a1, ha1, by rw [hb1, e1]⟩
  · intro h
    obtain ⟨x0, ha0, hb0⟩ := h 0 (by omega)
    obtain ⟨x1, ha1, hb1⟩ := h 1 (by omega)
    exact ⟨_, getCodecId_of_bytes P a x0 x1 ha0 ha1, getCodecId_of_bytes P b x0 x1 hb0 hb1⟩

/-- C18: extraction is injective on the identity bytes, so type equality is
byte equality.  For vendor-type blobs `a` and `b`,
`A2DP_VendorCodecTypeEquals(a, b)` returns true if and only if `a` and `b` hold
identical bytes at the four vendor-id positions and at the two codec-id
positions. -/
theorem C18_typeEquals_iff_identity_bytes_equal (P : Platform) (a b : Blob)
    (hta : P.A2DP_GetCodecType a = some P.A2DP_MEDIA_CT_NON_A2DP)
    (htb : P.A2DP_GetCodecType b = some P.A2DP_MEDIA_CT_NON_A2DP) :
    A2DP_VendorCodecTypeEquals P a b = some true ↔
      (∀ k, k < 4 → ∃ x, byteAt a (P.A2DP_VENDOR_CODEC_VENDOR_ID_START_IDX + k) = some x ∧
        byteAt b (P.A2DP_VENDOR_CODEC_VENDOR_ID_START_IDX + k) = some x) ∧
      (∀ k, k < 2 → ∃ x, byteAt a (P.A2DP_VENDOR_CODEC_CODEC_ID_START_IDX + k) = some x ∧
        byteAt b (P.A2DP_VENDOR_CODEC_CODEC_ID_START_IDX + k) = some x) := by
  rw [typeEquals_eq_true_iff, getVendorId_eq_iff_bytes, getCodecId_eq_iff_bytes]
  exact ⟨fun h => ⟨h.2.2.1, h.2.2.2⟩, fun h => ⟨hta, htb, h.1, h.2⟩⟩

/-- C18 at two vendor blobs with the same six identity bytes (type equal) and at
two vendor blobs that differ in one codec-id byte (not type equal). -/
theorem C18_typeEquals_iff_identity_bytes_equal_witness :
    A2DP_VendorCodecTypeEquals samplePlatform sampleBlob sampleBlob3 = some true ∧
      byteAt sampleBlob (samplePlatform.A2DP_VENDOR_CODEC_CODEC_ID_START_IDX + 0)
        ≠ byteAt sampleBlob2 (samplePlatform.A2DP_VENDOR_CODEC_CODEC_ID_START_IDX + 0) ∧
      A2DP_VendorCodecTypeEquals samplePlatform sampleBlob sampleBlob2 ≠ some true :=
  ⟨(C18_typeEquals_iff_identity_bytes_equal samplePlatform sampleBlob sampleBlob3
      (by decide) (by decide)).2 (by decide),
    by decide,
    fun h => absurd
      (((C18_typeEquals_iff_identity_bytes_equal samplePlatform sampleBlob sampleBlob2
        (by decide) (by decide)).1 h).2 0 (by decide))
      (by decide)⟩

/-- C19: `A2DP_VendorCodecTypeEquals` is a partial equivalence relation.  It is
transitive, for all blobs `a`, `b`, `c`, and for a blob `d` long enough to hold
the vendor id and the codec id `A2DP_VendorCodecTypeEquals(d, d)` returns true
exactly when `d` has the vendor codec type. -/
theorem C19_typeEquals_partial_equivalence (P : Platform) (a b c d : Blob)
    (hv : P.A2DP_VENDOR_CODEC_VENDOR_ID_START_IDX + 4 ≤ d.length)
    (hc : P.A2DP_VENDOR_CODEC_CODEC_ID_START_IDX + 2 ≤ d.length) :
    (A2DP_VendorCodecTypeEquals P a b = some true →
      A2DP_VendorCodecTypeEquals P b c = some true →
      A2DP_VendorCodecTypeEquals P a c = some true) ∧
    (A2DP_VendorCodecTypeEquals P d d = some true ↔
      P.A2DP_GetCodecType d = some P.A2DP_MEDIA_CT_NON_A2DP) := by
  constructor
  · intro hab hbc
    obtain ⟨hta, -, ⟨v, hva, hvb⟩, ⟨k, hka, hkb⟩⟩ := (typeEquals_eq_true_iff P a b).1 hab
    obtain ⟨-, htc, ⟨w, hwb, hwc⟩, ⟨l, hlb, hlc⟩⟩ := (typeEquals_eq_true_iff P b c).1 hbc
    have e1 : v = w := Option.some.inj (hvb.symm.trans hwb)
    have e2 : k = l := Option.some.inj (hkb.symm.trans hlb)
    subst e1 e2
    exact (typeEquals_eq_true_iff P a c).2 ⟨hta, htc, ⟨v, hva, hwc⟩, ⟨k, hka, hlc⟩⟩
  · obtain ⟨v, hvd⟩ := getVendorId_isSome P d hv
    obtain ⟨k, hkd⟩ := getCodecId_isSome P d hc
    rw [typeEquals_eq_true_iff]
    exact ⟨fun h => h.1, fun h => ⟨h, h, ⟨v, hvd, hvd⟩, ⟨k, hkd, hkd⟩⟩⟩

/-- C19 at three vendor blobs of one vendor key and at a blob whose codec type
is not the vendor one. -/
theorem C19_typeEquals_partial_equivalence_witness :
    (A2DP_VendorCodecTypeEquals samplePlatform sampleBlob3 sampleBlob = some true ∧
      A2DP_VendorCodecTypeEquals samplePlatform sampleBlob sampleBlob3 = some true ∧
      A2DP_VendorCodecTypeEquals samplePlatform sampleBlob3 sampleBlob3 = some true) ∧
    (A2DP_VendorCodecTypeEquals samplePlatform sampleNonVendorBlob sampleNonVendorBlob
        ≠ some true ∧
      samplePlatform.A2DP_GetCodecType sampleNonVendorBlob
        ≠ some samplePlatform.A2DP_MEDIA_CT_NON_A2DP) :=
  ⟨⟨by decide, by decide,
      (C19_typeEquals_partial_equivalence samplePlatform sampleBlob3 sampleBlob sampleBlob3
        sampleNonVendorBlob (by decide) (by decide)).1 (by decide) (by decide)⟩,
    ⟨fun h => absurd
        ((C19_typeEquals_partial_equivalence samplePlatform sampleBlob3 sampleBlob sampleBlob3
          sampleNonVendorBlob (by decide) (by decide)).2.1 h) (by decide),
      by decide⟩⟩

/-- C20: equality and reconfiguration are mutually consistent.  For every pair
of blobs the result of `A2DP_VendorCodecRequiresReconfig(a, b)` is the negation
of the result of `A2DP_VendorCodecEquals(a, b)`; in particular, if
`A2DP_VendorCodecEquals(a, b)` returns true then
`A2DP_VendorCodecRequiresReconfig(a, b)` returns false. -/
theorem C20_requiresReconfig_is_not_equals (P : Platform) (a b : Blob) :
    A2DP_VendorCodecRequiresReconfig P a b
        = (A2DP_VendorCodecEquals P a b).map (fun e => !e) ∧
      (A2DP_VendorCodecEquals P a b = some true →
        A2DP_VendorCodecRequiresReconfig P a b = some false) := by
  have key : A2DP_VendorCodecRequiresReconfig P a b
      = (A2DP_VendorCodecEquals P a b).map (fun e => !e) := by
    unfold A2DP_VendorCodecRequiresReconfig A2DP_VendorCodecEquals
    cases P.A2DP_GetCodecType a with
    | none => simp
    | some ta =>
      cases P.A2DP_GetCodecType b with
      | none => simp
      | some tb =>
        by_cases hg : ta ≠ tb ∨ ta ≠ P.A2DP_MEDIA_CT_NON_A2DP
        · simp only [Option.bind_eq_bind, Option.some_bind, hg, if_true]
          rfl
        · simp only [Option.bind_eq_bind, Option.some_bind, hg, if_false]
          cases A2DP_VendorCodecGetVendorId P a <;> cases A2DP_VendorCodecGetCodecId P a <;>
            cases A2DP_VendorCodecGetVendorId P b <;> cases A2DP_VendorCodecGetCodecId P b <;>
            simp
  refine ⟨key, fun h => ?_⟩
  rw [key, h]
  rfl

end A2dpVendor
